import Mathlib

/-!
# Energy Monitor Dashboard — verification of the telemetry core

Shallow embedding of `src/app.py` (the only source file): the data-acquisition
and derivation step `get_data` (lines 110–154), the main-loop processing of a
reading (lines 248–300: cost derivation, bounded history, status labels, error
backoff), and the sidebar configuration values those lines read.

Floats are modelled as `ℚ`; session state is passed explicitly.
-/

/-- A JSON value as far as `get_data`'s Remote branch can observe it:
a JSON number, a string that Python's `float()` accepts (numeric literal),
or any other value (non-numeric string, null, list, …) on which `float()`
raises. -/
inductive JVal where
  | jnum (x : ℚ)
  | jstrNum (x : ℚ)
  | jstrBad
deriving DecidableEq

/-- Python's `float(v)` on a JSON value: succeeds on numbers and numeric
strings, raises (here: `none`) otherwise. -/
def pyFloat : JVal → Option ℚ
  | .jnum x => some x
  | .jstrNum x => some x
  | .jstrBad => none

/-- Python `data.get(key, default)` on the decoded JSON dict. -/
def getField (fs : List (String × JVal)) (k : String) (d : JVal) : JVal :=
  match fs.lookup k with
  | some v => v
  | none => d

/-- The dict `get_data` returns on success (app.py lines 126–130 and 142–150). -/
structure Reading where
  voltage : ℚ
  current : ℚ
  power : ℚ
  energy : ℚ
  freq : ℚ
  pf : ℚ
  status : String
deriving DecidableEq

/-- Outcome of the HTTP GET in the Live-Device branch (app.py line 137):
`netErr` is a `requests` exception (timeout, connection refused);
`http code body` is a response, whose body is `none` when `response.json()`
fails (malformed JSON or a non-dict document) and the decoded key/value
pairs otherwise. -/
inductive Resp where
  | netErr
  | http (code : ℕ) (body : Option (List (String × JVal)))

/-- app.py lines 143–148: build the returned dict from the decoded JSON,
coercing each field with `float(...)` in the dict-literal order
voltage, current, power, energy, frequency, pf; any coercion failure
raises, which line 153 converts to `None`. -/
def convReading (fs : List (String × JVal)) : Option Reading := do
  let v ← pyFloat (getField fs "voltage" (.jnum 0))
  let c ← pyFloat (getField fs "current" (.jnum 0))
  let p ← pyFloat (getField fs "power" (.jnum 0))
  let en ← pyFloat (getField fs "energy" (.jnum 0))
  let f ← pyFloat (getField fs "frequency" (.jnum 50))
  let pfv ← pyFloat (getField fs "pf" (.jnum (9/10)))
  pure ⟨v, c, p, en, f, pfv, "ONLINE"⟩

/-- app.py lines 133–154 (Live-Device branch of `get_data`): the session
energy (`st.session_state.energy`, which holds whatever Python object was
assigned, hence `JVal`) is threaded explicitly; the result is the returned
value (`none` = Python `None`) paired with the session energy after the call.
On a 200 response with a decodable body, line 141 assigns the raw
`data.get('energy', 0)` to the session energy before the field coercions of
lines 143–148 run. -/
def remoteGetData (resp : Resp) (e : JVal) : Option Reading × JVal :=
  match resp with
  | .netErr => (none, e)
  | .http code body =>
    if code = 200 then
      match body with
      | none => (none, e)
      | some fs => (convReading fs, getField fs "energy" (.jnum 0))
    else (none, e)

/-- app.py line 116/118: `voltage = max(180, 230 + np.random.normal(0, 5))`,
with `gv` the raw normal draw. -/
def simVoltage (gv : ℚ) : ℚ := max 180 (230 + gv)

/-- app.py line 117/119: `current = max(0.1, 5 + np.random.normal(0, 2))`,
with `gc` the raw normal draw. -/
def simCurrent (gc : ℚ) : ℚ := max (1/10) (5 + gc)

/-- app.py line 120: `power = voltage * current * 0.92`, a pair `g = (gv, gc)`
of raw normal draws standing for one pseudo-random sample. -/
def simPower (g : ℚ × ℚ) : ℚ := simVoltage g.1 * simCurrent g.2 * (92/100)

/-- app.py lines 123–124: the Simulation branch adds
`(power / 1000) * (refresh_rate / 3600)` to the session energy; `rr` is the
sidebar `refresh_rate` slider value — no wall-clock time is consulted. -/
def simStep (g : ℚ × ℚ) (rr : ℚ) (e : ℚ) : ℚ :=
  e + (simPower g / 1000) * (rr / 3600)

/-- Session energy after a sequence of Simulation-mode `get_data` calls with
raw draws `gs`, starting from energy `e0`. In pure Simulation mode the session
energy is always a number (initialised to `0.0` at line 84), so it is `ℚ`. -/
def simEnergyAfter (rr : ℚ) (gs : List (ℚ × ℚ)) (e0 : ℚ) : ℚ :=
  gs.foldl (fun e g => simStep g rr e) e0

/-- app.py lines 126–130: the dict the Simulation branch returns; its
`energy` field is the already-updated session energy. The Simulation branch
never returns `None`. -/
def simReading (g : ℚ × ℚ) (rr : ℚ) (e : ℚ) : Reading :=
  ⟨simVoltage g.1, simCurrent g.2, simPower g, simStep g rr e, 50, 92/100, "SIMULATED"⟩

/-- app.py lines 269–270: append the new `(Time, Power)` row to the history
DataFrame and keep only the last 50 rows (`.tail(50)`). -/
def pushHist {α : Type} (h : List α) (x : α) : List α :=
  let l := h ++ [x]
  l.drop (l.length - 50)

/-- History after a sequence of successful ingests `xs`, starting from the
empty DataFrame of line 86. -/
def histAfter (xs : List (ℕ × ℚ)) : List (ℕ × ℚ) :=
  xs.foldl pushHist []

/-- app.py lines 284–285 ("Diagnostic Logic"): `v_status` is
`"STABLE" if 200 < voltage < 250 else "WARN"`, a pure function of the
current reading. -/
def vStatus (v : ℚ) : String :=
  if 200 < v ∧ v < 250 then "STABLE" else "WARN"

/-- All status labels the main loop derives from a reading in one iteration.
Lines 283–296 compute exactly one label, `v_status`; the console otherwise
echoes the source tag, frequency, power factor and timestamp verbatim. No
label is derived from `current` anywhere in app.py. -/
def statusLabels (r : Reading) : List String :=
  [vStatus r.voltage]

/-- What one main-loop iteration does after `get_data` (besides rendering):
either the error console plus a fixed `time.sleep(2)` (lines 253–263), or the
derived cost plus `time.sleep(refresh_rate)` (lines 266, 300). -/
inductive LoopOutcome where
  | errorBackoff (sleepSecs : ℚ)
  | rendered (cost : ℚ) (sleepSecs : ℚ)
deriving DecidableEq

/-- Session state touched by the main loop: accumulated energy and the
rolling history (line 83–86). -/
structure RState where
  energy : JVal
  history : List (ℕ × ℚ)
deriving DecidableEq

/-- One Live-Device main-loop iteration (app.py lines 248–300, rendering
elided): call `get_data`; on `None` show the connection error and sleep a
fixed 2 seconds (`continue`: no cost, no history append); on a reading,
derive `cost = data['energy'] * tariff` (line 266), append `(now, power)`
to the history capped at 50 (lines 269–270), and sleep `refresh_rate`. -/
def remoteLoopStep (resp : Resp) (tariff rr : ℚ) (now : ℕ) (s : RState) :
    RState × LoopOutcome :=
  match remoteGetData resp s.energy with
  | (none, e') => ({ s with energy := e' }, .errorBackoff 2)
  | (some r, e') =>
    ({ energy := e', history := pushHist s.history (now, r.power) },
      .rendered (r.energy * tariff) rr)

/-- Session state in pure Simulation mode (energy always numeric). -/
structure SimState where
  energy : ℚ
  history : List (ℕ × ℚ)
deriving DecidableEq

/-- One Simulation main-loop iteration: `get_data` always succeeds, updating
the session energy (lines 123–124) and returning the dict of lines 126–130;
the loop then derives the cost and appends to the history as above. -/
def simLoopStep (g : ℚ × ℚ) (tariff rr : ℚ) (now : ℕ) (s : SimState) :
    SimState × LoopOutcome :=
  let r := simReading g rr s.energy
  ({ energy := simStep g rr s.energy, history := pushHist s.history (now, r.power) },
    .rendered (r.energy * tariff) rr)

/-- The failure kinds of the claim taxonomy for the Live-Device source:
a transport exception (timeout, connection refused), a non-200 status, or a
200 whose body `response.json()` cannot decode. -/
def isAcqFailure : Resp → Bool
  | .netErr => true
  | .http code body => code ≠ 200 || body.isNone

/-! ## Helper lemmas -/

theorem simEnergyAfter_cons (rr : ℚ) (g : ℚ × ℚ) (gs : List (ℚ × ℚ)) (e0 : ℚ) :
    simEnergyAfter rr (g :: gs) e0 = simEnergyAfter rr gs (simStep g rr e0) := rfl

theorem simEnergyAfter_eq_add_sum (rr : ℚ) (gs : List (ℚ × ℚ)) (e0 : ℚ) :
    simEnergyAfter rr gs e0
      = e0 + (gs.map fun g => simPower g / 1000 * (rr / 3600)).sum := by
  induction gs generalizing e0 with
  | nil => simp [simEnergyAfter]
  | cons g gs ih =>
    rw [simEnergyAfter_cons, ih]
    simp only [List.map_cons, List.sum_cons, simStep]
    ring

theorem simVoltage_ge (gv : ℚ) : 180 ≤ simVoltage gv := le_max_left _ _

theorem simCurrent_ge (gc : ℚ) : 1/10 ≤ simCurrent gc := le_max_left _ _

theorem simPower_pos (g : ℚ × ℚ) : 0 < simPower g := by
  have hv : (0:ℚ) < simVoltage g.1 := lt_of_lt_of_le (by norm_num) (simVoltage_ge g.1)
  have hc : (0:ℚ) < simCurrent g.2 := lt_of_lt_of_le (by norm_num) (simCurrent_ge g.2)
  exact mul_pos (mul_pos hv hc) (by norm_num)

theorem simStep_le_self (g : ℚ × ℚ) (rr e : ℚ) (h : 0 ≤ rr) : e ≤ simStep g rr e := by
  have hp : 0 ≤ simPower g / 1000 * (rr / 3600) := by
    have := (simPower_pos g).le
    positivity
  simp only [simStep]
  linarith

theorem le_simEnergyAfter (rr : ℚ) (h : 0 ≤ rr) (gs : List (ℚ × ℚ)) (e : ℚ) :
    e ≤ simEnergyAfter rr gs e := by
  induction gs generalizing e with
  | nil => exact le_refl _
  | cons g gs ih =>
    exact le_trans (simStep_le_self g rr e h) (ih (simStep g rr e))

theorem simEnergyAfter_append (rr : ℚ) (gs gs' : List (ℚ × ℚ)) (e0 : ℚ) :
    simEnergyAfter rr (gs ++ gs') e0 = simEnergyAfter rr gs' (simEnergyAfter rr gs e0) :=
  List.foldl_append _ _ _ _

/-- Keep the last 50 elements of a list, as `.tail(50)` does. -/
def keepLast50 {α : Type} (l : List α) : List α :=
  l.drop (l.length - 50)

theorem pushHist_eq_keepLast50 {α : Type} (h : List α) (x : α) :
    pushHist h x = keepLast50 (h ++ [x]) := rfl

theorem length_keepLast50 {α : Type} (l : List α) : (keepLast50 l).length ≤ 50 := by
  simp only [keepLast50, List.length_drop]
  omega

theorem keepLast50_keepLast50_append {α : Type} (l m : List α) :
    keepLast50 (keepLast50 l ++ m) = keepLast50 (l ++ m) := by
  simp only [keepLast50]
  rw [← List.drop_append_of_le_length (Nat.sub_le l.length 50)]
  rw [List.drop_drop]
  simp only [List.length_drop, List.length_append]
  congr 1
  omega

theorem foldl_pushHist_eq {α : Type} (xs : List α) (h : List α) (hlen : h.length ≤ 50) :
    xs.foldl pushHist h = keepLast50 (h ++ xs) := by
  induction xs generalizing h with
  | nil =>
    simp only [List.foldl_nil, List.append_nil, keepLast50]
    rw [Nat.sub_eq_zero_of_le hlen, List.drop_zero]
  | cons x xs ih =>
    rw [List.foldl_cons, pushHist_eq_keepLast50,
      ih _ (length_keepLast50 _), keepLast50_keepLast50_append,
      List.append_assoc, List.singleton_append]

theorem histAfter_eq_keepLast50 (xs : List (ℕ × ℚ)) : histAfter xs = keepLast50 xs := by
  rw [histAfter, foldl_pushHist_eq xs [] (by simp), List.nil_append]

theorem convReading_energy {fs : List (String × JVal)} {r : Reading}
    (h : convReading fs = some r) :
    pyFloat (getField fs "energy" (.jnum 0)) = some r.energy := by
  simp only [convReading, Option.bind_eq_bind, Option.bind_eq_some', Option.pure_def,
    Option.some.injEq] at h
  obtain ⟨v, hv, c, hc, p, hp, en, hen, f, hf, pfv, hpf, hr⟩ := h
  rw [← hr]
  exact hen

/-! ## Claims -/

/-- C2: for every sequence of Simulated-mode readings starting from energy 0,
the accumulated energy after the N ingests is exactly the sum of each
reading's (power/1000) × (Δt/3600) contribution, where Δt is the elapsed
interval the code uses for that ingest (the `refresh_rate` value `rr`):
accumulation is exactly additive. -/
theorem sim_energy_additive (rr : ℚ) (gs : List (ℚ × ℚ)) :
    simEnergyAfter rr gs 0 = (gs.map fun g => simPower g / 1000 * (rr / 3600)).sum := by
  rw [simEnergyAfter_eq_add_sum]
  ring

/-- C5: the voltage status label is STABLE iff 200 < voltage < 250 (open
interval, exclusive at both ends) and WARN otherwise; in particular
voltage = 200.0 gives WARN, voltage = 200.0001 gives STABLE and
voltage = 250.0 gives WARN. `vStatus` takes only the current reading's
voltage, so there is no hysteresis. -/
theorem voltage_status_thresholds :
    (∀ v : ℚ, vStatus v = "STABLE" ↔ 200 < v ∧ v < 250) ∧
    (∀ v : ℚ, vStatus v = "WARN" ↔ ¬(200 < v ∧ v < 250)) ∧
    vStatus 200 = "WARN" ∧ vStatus (2000001/10000) = "STABLE" ∧ vStatus 250 = "WARN" := by
  have hs : ∀ v : ℚ, vStatus v = "STABLE" ↔ 200 < v ∧ v < 250 := by
    intro v
    unfold vStatus
    split_ifs with h
    · simp [h]
    · simpa using h
  have hw : ∀ v : ℚ, vStatus v = "WARN" ↔ ¬(200 < v ∧ v < 250) := by
    intro v
    unfold vStatus
    split_ifs with h
    · simp [h]
    · simp [h]
  refine ⟨hs, hw, ?_, ?_, ?_⟩
  · rw [hw]; norm_num
  · rw [hs]; norm_num
  · rw [hw]; norm_num

/-- C7: under Simulated-mode operation (nonnegative polling interval), every
simulated reading has voltage ≥ 180 and current ≥ 0.1, its power
voltage × current × 0.92 is strictly positive, and the accumulated energy is
monotonically non-decreasing along every sequence of ingests. -/
theorem sim_energy_monotone (rr : ℚ) (h : 0 ≤ rr) :
    (∀ g : ℚ × ℚ, 180 ≤ simVoltage g.1 ∧ 1/10 ≤ simCurrent g.2 ∧ 0 < simPower g) ∧
    (∀ (g : ℚ × ℚ) (e : ℚ), e ≤ simStep g rr e) ∧
    (∀ (e0 : ℚ) (gs gs' : List (ℚ × ℚ)),
      simEnergyAfter rr gs e0 ≤ simEnergyAfter rr (gs ++ gs') e0) := by
  refine ⟨fun g => ⟨simVoltage_ge g.1, simCurrent_ge g.2, simPower_pos g⟩,
    fun g e => simStep_le_self g rr e h, fun e0 gs gs' => ?_⟩
  rw [simEnergyAfter_append]
  exact le_simEnergyAfter rr h gs' _

/-- Witness for C7 at rr = 1: concrete draws, including ones pushed onto the
clamping floors. -/
theorem sim_energy_monotone_witness :
    (0:ℚ) ≤ 1 ∧
    (0 < simPower ((0:ℚ), (0:ℚ)) ∧
     (5:ℚ) ≤ simStep (0, 0) 1 5 ∧
     simEnergyAfter 1 [((0:ℚ), (0:ℚ))] 2 ≤ simEnergyAfter 1 ([(0, 0)] ++ [(-100, -100)]) 2) :=
  ⟨by decide,
    ((sim_energy_monotone 1 (by decide)).1 (0, 0)).2.2,
    (sim_energy_monotone 1 (by decide)).2.1 (0, 0) 5,
    (sim_energy_monotone 1 (by decide)).2.2 2 [(0, 0)] [(-100, -100)]⟩

/-- C1: for every Remote-mode acquisition failure of the listed kinds —
transport exception (timeout, connection refused), non-200 status, or a body
`response.json()` cannot decode — `get_data` returns `None`, the main loop
performs no ingest-equivalent processing (no energy update, no cost, no
history append) and the session state is exactly what it was before the call;
the iteration ends in the error console with a fixed 2-second sleep,
independent of the configured `refresh_rate`, and the loop retries. -/
theorem remote_failure_state_preserved (resp : Resp) (tariff rr : ℚ) (now : ℕ)
    (s : RState) (h : isAcqFailure resp = true) :
    remoteGetData resp s.energy = (none, s.energy) ∧
    remoteLoopStep resp tariff rr now s = (s, .errorBackoff 2) := by
  have h1 : remoteGetData resp s.energy = (none, s.energy) := by
    cases resp with
    | netErr => rfl
    | http code body =>
      rcases eq_or_ne code 200 with hc | hc
      · subst hc
        have hb : body = none := by
          cases body with
          | none => rfl
          | some fs => simp [isAcqFailure] at h
        subst hb
        rfl
      · simp [remoteGetData, hc]
  refine ⟨h1, ?_⟩
  simp only [remoteLoopStep, h1]

/-- Witness for C1 at the spec's scenario: an HTTP 500 response (whose body
even carries an energy field) leaves the session state untouched and ends in
the fixed 2-second backoff. -/
theorem remote_failure_state_preserved_witness :
    isAcqFailure (.http 500 (some [("energy", .jnum 1)])) = true ∧
    remoteGetData (.http 500 (some [("energy", .jnum 1)])) (RState.mk (.jnum 7) [(0, 3)]).energy
      = (none, .jnum 7) ∧
    remoteLoopStep (.http 500 (some [("energy", .jnum 1)])) 2 1 0 ⟨.jnum 7, [(0, 3)]⟩
      = (⟨.jnum 7, [(0, 3)]⟩, .errorBackoff 2) :=
  ⟨by decide,
    (remote_failure_state_preserved (.http 500 (some [("energy", .jnum 1)])) 2 1 0
      ⟨.jnum 7, [(0, 3)]⟩ (by decide)).1,
    (remote_failure_state_preserved (.http 500 (some [("energy", .jnum 1)])) 2 1 0
      ⟨.jnum 7, [(0, 3)]⟩ (by decide)).2⟩

/-- C3: for every successful Remote-mode reading (a 200 response whose decoded
dict coerces to a reading), the session energy after the call is exactly the
payload's raw energy field — defaulting to 0 when the field is absent — and
its numeric value is the reading's reported energy, regardless of the prior
accumulated value; no clamping is applied, so a decreasing meter value passes
through verbatim (witness). -/
theorem remote_success_overwrites (fs : List (String × JVal)) (r : Reading)
    (h : convReading fs = some r) :
    ∀ eprev : JVal,
      remoteGetData (.http 200 (some fs)) eprev = (some r, getField fs "energy" (.jnum 0)) ∧
      pyFloat (getField fs "energy" (.jnum 0)) = some r.energy ∧
      (fs.lookup "energy" = none → getField fs "energy" (.jnum 0) = .jnum 0 ∧ r.energy = 0) := by
  intro eprev
  refine ⟨by simp [remoteGetData, h], convReading_energy h, fun hl => ?_⟩
  have hg : getField fs "energy" (.jnum 0) = .jnum 0 := by simp [getField, hl]
  refine ⟨hg, ?_⟩
  have hen := convReading_energy h
  rw [hg] at hen
  simpa [pyFloat, eq_comm] using hen

/-- Witness for C3: a meter reading of 120.5 kWh overwrites a prior
accumulated 0, and the next poll's 118.0 kWh overwrites the 120.5 — the
decrease is accepted verbatim. -/
theorem remote_success_overwrites_witness :
    convReading [("voltage", .jnum 230), ("current", .jnum 4), ("power", .jnum 960),
        ("energy", .jnum (241/2))]
      = some ⟨230, 4, 960, 241/2, 50, 9/10, "ONLINE"⟩ ∧
    remoteGetData (.http 200 (some [("voltage", .jnum 230), ("current", .jnum 4),
        ("power", .jnum 960), ("energy", .jnum (241/2))])) (.jnum 0)
      = (some ⟨230, 4, 960, 241/2, 50, 9/10, "ONLINE"⟩, .jnum (241/2)) ∧
    remoteGetData (.http 200 (some [("voltage", .jnum 230), ("current", .jnum 4),
        ("power", .jnum 960), ("energy", .jnum 118)])) (.jnum (241/2))
      = (some ⟨230, 4, 960, 118, 50, 9/10, "ONLINE"⟩, .jnum 118) :=
  ⟨rfl,
    (remote_success_overwrites
      [("voltage", .jnum 230), ("current", .jnum 4), ("power", .jnum 960),
        ("energy", .jnum (241/2))]
      ⟨230, 4, 960, 241/2, 50, 9/10, "ONLINE"⟩ rfl (.jnum 0)).1,
    (remote_success_overwrites
      [("voltage", .jnum 230), ("current", .jnum 4), ("power", .jnum 960),
        ("energy", .jnum 118)]
      ⟨230, 4, 960, 118, 50, 9/10, "ONLINE"⟩ rfl (.jnum (241/2))).1⟩

/-- C4: over every sequence of successful ingests the history never exceeds
50 entries, it is exactly the suffix of the insertion sequence of the most
recent 50 entries (so insertion order is preserved and eviction is FIFO), and
after 51 ingests the history is the insertion sequence minus its first entry:
the 1st inserted entry is evicted and the oldest present is the 2nd. -/
theorem history_bounded_fifo (xs : List (ℕ × ℚ)) :
    (histAfter xs).length ≤ 50 ∧
    histAfter xs = xs.drop (xs.length - 50) ∧
    (xs.length = 51 → histAfter xs = xs.tail) := by
  have h2 : histAfter xs = xs.drop (xs.length - 50) := histAfter_eq_keepLast50 xs
  refine ⟨?_, h2, fun h51 => ?_⟩
  · rw [h2]
    simp only [List.length_drop]
    omega
  · rw [h2, h51]
    norm_num [List.drop_one]

/-- Witness for C4 at a concrete run of 51 ingests. -/
theorem history_bounded_fifo_witness :
    ((List.range 51).map fun i => (i, (0:ℚ))).length = 51 ∧
    histAfter ((List.range 51).map fun i => (i, (0:ℚ)))
      = ((List.range 51).map fun i => (i, (0:ℚ))).tail :=
  ⟨by decide, (history_bounded_fifo ((List.range 51).map fun i => (i, (0:ℚ)))).2.2 (by decide)⟩

/-- C6: for every successful ingest and every non-negative tariff rate, the
derived cost is exactly `energy_kwh × tariff` — the accumulated energy after
the ingest times the tariff — with no rounding in the derivation (line 266
is a bare multiplication; formatting happens only in the rendering). -/
theorem cost_no_rounding (tariff : ℚ) (_ht : 0 ≤ tariff) :
    (∀ (g : ℚ × ℚ) (rr : ℚ) (now : ℕ) (s : SimState),
      (simLoopStep g tariff rr now s).2 = .rendered (simStep g rr s.energy * tariff) rr) ∧
    (∀ (fs : List (String × JVal)) (r : Reading) (rr : ℚ) (now : ℕ) (s : RState),
      convReading fs = some r →
      (remoteLoopStep (.http 200 (some fs)) tariff rr now s).2
        = .rendered (r.energy * tariff) rr) := by
  refine ⟨fun g rr now s => rfl, fun fs r rr now s h => ?_⟩
  simp [remoteLoopStep, remoteGetData, h]

/-- Witness for C6 at tariff 2: one Simulation ingest and one Remote ingest. -/
theorem cost_no_rounding_witness :
    (0:ℚ) ≤ 2 ∧
    (simLoopStep ((0:ℚ), (0:ℚ)) 2 1 0 ⟨0, []⟩).2 = .rendered (simStep (0, 0) 1 0 * 2) 1 ∧
    (remoteLoopStep (.http 200 (some [("energy", .jnum 5)])) 2 1 0 ⟨.jnum 0, []⟩).2
      = .rendered ((5:ℚ) * 2) 1 :=
  ⟨by decide,
    (cost_no_rounding 2 (by decide)).1 (0, 0) 1 0 ⟨0, []⟩,
    (cost_no_rounding 2 (by decide)).2 [("energy", .jnum 5)]
      ⟨0, 0, 0, 5, 50, 9/10, "ONLINE"⟩ 1 0 ⟨.jnum 0, []⟩ rfl⟩

/-- The three raw draws of the three-ingest scenario: voltage draw 0 (so
230 V after clamping) and current draws chosen so that the three power
samples are exactly 900 W, 1000 W and 1100 W. -/
def scenarioDraws : List (ℚ × ℚ) :=
  [(0, 2250/529 - 5), (0, 2500/529 - 5), (0, 2750/529 - 5)]

theorem simPower_gv_zero (c : ℚ) (hc : 1/10 ≤ 5 + c) :
    simPower (0, c) = 230 * (5 + c) * (92/100) := by
  simp only [simPower, simVoltage, simCurrent]
  rw [max_eq_right hc, max_eq_right (by norm_num : (180:ℚ) ≤ 230 + 0)]
  ring

theorem scenario_powers :
    simPower ((0:ℚ), 2250/529 - 5) = 900 ∧ simPower ((0:ℚ), 2500/529 - 5) = 1000 ∧
    simPower ((0:ℚ), 2750/529 - 5) = 1100 := by
  refine ⟨?_, ?_, ?_⟩ <;> rw [simPower_gv_zero _ (by norm_num)] <;> norm_num

theorem scenario_energy : simEnergyAfter 1 scenarioDraws 0 = 1/1200 := by
  obtain ⟨h1, h2, h3⟩ := scenario_powers
  rw [scenarioDraws, simEnergyAfter_eq_add_sum]
  simp only [List.map_cons, List.map_nil, List.sum_cons, List.sum_nil]
  rw [h1, h2, h3]
  norm_num

/-- C8 counterexample: with tariff 7.50 and three Simulated ingests whose
power samples are exactly 900 W, 1000 W and 1100 W over 1.0 s each, the code
accumulates exactly 1/1200 ≈ 0.000833 kWh — more than 0.000001 above the
claimed ≈ 0.000806 — and derives cost exactly 1/160 = 0.00625, more than
0.00001 above the claimed ≈ 0.00604. -/
theorem sim_scenario_counterexample :
    (simPower ((0:ℚ), 2250/529 - 5) = 900 ∧ simPower ((0:ℚ), 2500/529 - 5) = 1000 ∧
      simPower ((0:ℚ), 2750/529 - 5) = 1100) ∧
    simEnergyAfter 1 scenarioDraws 0 = 1/1200 ∧
    806/1000000 + 1/1000000 < simEnergyAfter 1 scenarioDraws 0 ∧
    simEnergyAfter 1 scenarioDraws 0 * (15/2) = 1/160 ∧
    604/100000 + 1/100000 < simEnergyAfter 1 scenarioDraws 0 * (15/2) := by
  refine ⟨scenario_powers, scenario_energy, ?_, ?_, ?_⟩ <;> rw [scenario_energy] <;> norm_num

/-- C8 amended: with tariff_rate = 7.50 and three Simulated ingests with
power samples 900 W, 1000 W and 1100 W, each over an elapsed interval of
1.0 s, the accumulated energy equals (900+1000+1100)/1000 × (1/3600)
= 1/1200 ≈ 0.000833 kWh and the derived cost is exactly 0.00625. -/
theorem sim_scenario_values :
    (simPower ((0:ℚ), 2250/529 - 5) = 900 ∧ simPower ((0:ℚ), 2500/529 - 5) = 1000 ∧
      simPower ((0:ℚ), 2750/529 - 5) = 1100) ∧
    simEnergyAfter 1 scenarioDraws 0 = (900 + 1000 + 1100) / 1000 * (1 / 3600) ∧
    |simEnergyAfter 1 scenarioDraws 0 - 833/1000000| < 1/1000000 ∧
    simEnergyAfter 1 scenarioDraws 0 * (15/2) = 625/100000 := by
  refine ⟨scenario_powers, ?_, ?_, ?_⟩ <;> rw [scenario_energy]
  · norm_num
  · rw [abs_lt]
    constructor <;> norm_num
  · norm_num

/-- C9 counterexample: at a reading with current 20 A — which the claim says
must yield an OVERLOAD label — the main loop derives only the voltage label;
neither NOMINAL nor OVERLOAD is derived. -/
theorem no_current_label_counterexample :
    statusLabels ⟨230, 20, 4232, 0, 50, 9/10, "ONLINE"⟩ = ["STABLE"] ∧
    "OVERLOAD" ∉ statusLabels ⟨230, 20, 4232, 0, 50, 9/10, "ONLINE"⟩ ∧
    "NOMINAL" ∉ statusLabels ⟨230, 20, 4232, 0, 50, 9/10, "ONLINE"⟩ := by
  refine ⟨by decide, by decide, by decide⟩

/-- C9 amended: the only status label the main loop derives from a reading
is the voltage one (STABLE iff 200 < voltage < 250, else WARN, a pure
per-reading threshold check); no current status label (NOMINAL/OVERLOAD)
is derived anywhere in the code. -/
theorem no_current_label (r : Reading) :
    statusLabels r = [vStatus r.voltage] ∧
    "NOMINAL" ∉ statusLabels r ∧ "OVERLOAD" ∉ statusLabels r := by
  refine ⟨rfl, ?_, ?_⟩ <;>
    · simp only [statusLabels, List.mem_singleton]
      unfold vStatus
      split_ifs <;> decide

/-- C10 (implicit): in Simulation mode each `get_data` call uses the
configured `refresh_rate` value `rr` as the elapsed time: the energy
increment — both in the session state and in the returned dict's energy
field — equals (power/1000) × (rr/3600), for every call and every prior
energy; no wall-clock input exists in the computation. -/
theorem sim_increment_uses_refresh_rate (g : ℚ × ℚ) (rr e : ℚ) :
    simStep g rr e - e = simPower g / 1000 * (rr / 3600) ∧
    (simReading g rr e).energy - e = simPower g / 1000 * (rr / 3600) := by
  constructor
  · simp only [simStep]; ring
  · simp only [simReading, simStep]; ring
